import Mathlib

/-!
Shallow embedding of the Rust exercise grader (src/main.rs of the
Rust-Basic repository).

External effects are made explicit data:
* subprocess execution is a pure function from an `Invocation` (program,
  arguments, working directory) to either a captured output or a launch
  failure message — `ExecWorld`;
* the root directory listing (at scan time and at cleanup time) is a list
  of `RootEntry` values carrying exactly the facts the program observes:
  is it a directory, does it hold a Cargo.toml, which file names does it
  contain in listing order, does it hold a target subdirectory at
  cleanup time, and what removing that target subdirectory yields;
* standard input is a list of lines, with end-of-file read as the empty
  line (as read_line reports on EOF).

Each definition mirrors theRust function of the same name; the inline
loops of main are split into the named loop functions
`watch_dirs_loop` / `watch_files_loop` / `all_dirs_loop` /
`all_files_loop`, and the repeated push-and-count-increment statement
of main is `record_result`.  The runners additionally return the list of
invocations they performed, so that theorems can speak about which
external commands were launched and in which order.
-/

/-- Captured output of one launched subprocess: exit status and the two
output streams. -/
structure ProcOutput where
  success : Bool
  stdout : String
  stderr : String
deriving DecidableEq

/-- One external command invocation: program name, ordered argument list,
optional working-directory override. -/
structure Invocation where
  program : String
  args : List String
  cwd : Option String
deriving DecidableEq

/-- The subprocess world: launching an invocation either yields its captured
output, or fails to launch (executable missing or not launchable) with an
error message. -/
abbrev ExecWorld := Invocation → Except String ProcOutput

instance {ε α : Type} [DecidableEq ε] [DecidableEq α] :
    DecidableEq (Except ε α) := fun x y =>
  match x, y with
  | .ok a, .ok b =>
    if h : a = b then isTrue (by rw [h])
    else isFalse (fun hh => h (by injection hh))
  | .ok _, .error _ => isFalse (fun h => Except.noConfusion h)
  | .error _, .ok _ => isFalse (fun h => Except.noConfusion h)
  | .error a, .error b =>
    if h : a = b then isTrue (by rw [h])
    else isFalse (fun hh => h (by injection hh))

/-- One immediate entry of the exercises root directory together with the
facts the program observes about it during a session. -/
structure RootEntry where
  name : String
  isDir : Bool
  hasCargoToml : Bool
  files : List String
  hasTarget : Bool
  removeTarget : Except String Unit
deriving DecidableEq

/-- Mirrors struct ExerciseResult of main.rs. -/
structure ExerciseResult where
  name : String
  result : Bool
deriving DecidableEq

/-- Mirrors struct Statistics of main.rs (the field name total_exercations
is the source's own spelling). -/
structure Statistics where
  total_exercations : Nat
  total_succeeds : Nat
  total_failures : Nat
  total_time : Nat
deriving DecidableEq

/-- Mirrors struct Report of main.rs. -/
structure Report where
  exercises : List ExerciseResult
  user_name : Option String
  statistics : Statistics
deriving DecidableEq

/-- Splits a character list at every occurrence of the separator, keeping
empty groups, as Rust's split on a single-character pattern does. -/
def splitOnChar (sep : Char) : List Char → List (List Char)
  | [] => [[]]
  | c :: cs =>
    let rest := splitOnChar sep cs
    if c = sep then [] :: rest
    else
      match rest with
      | [] => [[c]]
      | g :: gs => (c :: g) :: gs

/-- The dot-separated pieces of a file name. -/
def splitDots (s : String) : List String :=
  (splitOnChar '.' s.data).map (fun l => ⟨l⟩)

/-- The slash-separated components of a path string. -/
def splitSlashes (s : String) : List String :=
  (splitOnChar '/' s.data).map (fun l => ⟨l⟩)

/-- Joins strings with the separator between them. -/
def joinWith (sep : String) : List String → String
  | [] => ""
  | [x] => x
  | x :: xs => x ++ sep ++ joinWith sep xs

/-- Drops leading whitespace characters. -/
def dropLeadingWs : List Char → List Char
  | [] => []
  | c :: cs => if c.isWhitespace then dropLeadingWs cs else c :: cs

/-- Mirrors Rust's str::trim: remove leading and trailing whitespace. -/
def str_trim (s : String) : String :=
  ⟨(dropLeadingWs (dropLeadingWs s.data).reverse).reverse⟩

/-- Mirrors Rust's str::to_lowercase on the characters of the string. -/
def str_to_lower (s : String) : String :=
  ⟨s.data.map Char.toLower⟩

/-- Removes the extension of a file name, as Rust's with_extension of the
empty string does on the final path component: the portion after the last
dot is dropped, except that a lone leading dot (hidden file) is not an
extension. -/
def stripExtName (name : String) : String :=
  match splitDots name with
  | [] => name
  | [_] => name
  | "" :: [_] => name
  | parts => joinWith "." parts.dropLast

/-- Mirrors PathBuf.with_extension of the empty string: strip the extension
of the final path component. -/
def withExtensionEmpty (p : String) : String :=
  match (splitSlashes p).reverse with
  | [] => p
  | last :: revDirs => joinWith "/" (stripExtName last :: revDirs).reverse

/-- Mirrors the check path.extension == Some of rs used by
get_rs_files_in_directory: true when the file name has an extension and it
equals rs. -/
def extensionIsRs (name : String) : Bool :=
  match splitDots name with
  | [] => false
  | [_] => false
  | "" :: [_] => false
  | parts => parts.getLast? == some "rs"

/-- Mirrors Path.parent on the display string of a path. -/
def parentDir (p : String) : String :=
  match (splitSlashes p).reverse with
  | [] => p
  | [_] => ""
  | _ :: revDirs => joinWith "/" revDirs.reverse

/-- Mirrors run_cargo_command of main.rs: launch cargo with the given
subcommand in the exercise directory; a launch failure or a non-success
exit status both yield false.  The second component records the invocation
performed. -/
def run_cargo_command (w : ExecWorld) (exercise_dir command : String) :
    Bool × List Invocation :=
  let inv : Invocation := ⟨"cargo", [command], some exercise_dir⟩
  let success :=
    match w inv with
    | .ok out => out.success
    | .error _ => false
  (success, [inv])

/-- Mirrors evaluate_cargo_project of main.rs: run cargo build, cargo test
and cargo clippy (all three, in this order) and return the conjunction of
their successes, together with the performed invocations. -/
def evaluate_cargo_project (w : ExecWorld) (exercise_dir : String) :
    Bool × List Invocation :=
  let build_result := run_cargo_command w exercise_dir "build"
  let test_result := run_cargo_command w exercise_dir "test"
  let clippy_result := run_cargo_command w exercise_dir "clippy"
  (build_result.1 && test_result.1 && clippy_result.1,
    build_result.2 ++ test_result.2 ++ clippy_result.2)

/-- Mirrors run_rustc_command of main.rs: compile the file with rustc; on
compile success, execute the produced artifact (the path with its extension
stripped) with no arguments; any launch failure or non-success status is an
error.  The second component records the invocations performed. -/
def run_rustc_command (w : ExecWorld) (exercise_file : String) :
    Except String Unit × List Invocation :=
  let inv1 : Invocation := ⟨"rustc", [exercise_file], none⟩
  match w inv1 with
  | .error e => (.error ("Failed to execute rustc: " ++ e), [inv1])
  | .ok out =>
    if !out.success then
      (.error ("rustc compilation failed: " ++ out.stderr), [inv1])
    else
      let compiled_file := withExtensionEmpty exercise_file
      let inv2 : Invocation := ⟨compiled_file, [], none⟩
      match w inv2 with
      | .error e => (.error ("Failed to execute compiled file: " ++ e), [inv1, inv2])
      | .ok out2 =>
        if !out2.success then
          (.error ("Execution failed: " ++ out2.stderr), [inv1, inv2])
        else (.ok (), [inv1, inv2])

/-- Mirrors Result.is_ok on the result type of run_rustc_command. -/
def is_ok : Except String Unit → Bool
  | .ok _ => true
  | .error _ => false

/-- Mirrors evaluate_single_file of main.rs. -/
def evaluate_single_file (w : ExecWorld) (exercise_file : String) : Bool :=
  is_ok (run_rustc_command w exercise_file).1

/-- Success of the compile step of a single-file unit, read off the world:
rustc launched and exited successfully on the file. -/
def compile_step_ok (w : ExecWorld) (exercise_file : String) : Bool :=
  match w ⟨"rustc", [exercise_file], none⟩ with
  | .ok out => out.success
  | .error _ => false

/-- Success of executing the produced artifact of a single-file unit, read
off the world: the extension-stripped path launched with no arguments and
exited successfully. -/
def artifact_run_ok (w : ExecWorld) (exercise_file : String) : Bool :=
  match w ⟨withExtensionEmpty exercise_file, [], none⟩ with
  | .ok out => out.success
  | .error _ => false

/-- Mirrors print_compiler_output of main.rs: reruns rustc on the file; the
Rust code unwraps the launch with expect, so a launch failure aborts the
whole process (a panic), modelled as the error case. -/
def print_compiler_output (w : ExecWorld) (exercise_file : String) :
    Except String Unit :=
  match w ⟨"rustc", [exercise_file], none⟩ with
  | .error _ => .error "Failed to execute rustc"
  | .ok _ => .ok ()

/-- Mirrors print_cargo_test_output of main.rs: runs cargo test in the
file's parent directory; the launch is unwrapped with expect, so a launch
failure aborts the whole process (a panic), modelled as the error case. -/
def print_cargo_test_output (w : ExecWorld) (exercise_file : String) :
    Except String Unit :=
  match w ⟨"cargo", ["test"], some (parentDir exercise_file)⟩ with
  | .error _ => .error "Failed to execute cargo test"
  | .ok _ => .ok ()

/-- Mirrors ask_to_continue of main.rs applied to the line that was read:
continue unless the trimmed, lower-cased input equals q. -/
def ask_to_continue (input : String) : Bool :=
  str_to_lower (str_trim input) != "q"

/-- Reading one line from the remaining standard input; end-of-file leaves
the buffer empty, so read_line yields the empty string there. -/
def read_line : List String → String × List String
  | [] => ("", [])
  | l :: ls => (l, ls)

/-- Mirrors the repeated push-and-count statement of main: append the
ExerciseResult and increment exactly one of the two counters. -/
def record_result (r : Report) (name : String) (result : Bool) : Report :=
  let r2 : Report := { r with exercises := r.exercises ++ [⟨name, result⟩] }
  if result then
    { r2 with statistics :=
        { r2.statistics with total_succeeds := r2.statistics.total_succeeds + 1 } }
  else
    { r2 with statistics :=
        { r2.statistics with total_failures := r2.statistics.total_failures + 1 } }

/-- The empty report main starts from (lines 50 to 59 of main.rs). -/
def initial_report : Report := ⟨[], none, ⟨0, 0, 0, 0⟩⟩

/-- Mirrors scan_directory of main.rs: propagate a read failure of the root
directory, otherwise keep exactly the entries that are directories. -/
def scan_directory (root : Except String (List RootEntry)) :
    Except String (List RootEntry) :=
  match root with
  | .error e => .error e
  | .ok entries => .ok (entries.filter (fun e => e.isDir))

/-- Mirrors get_rs_files_in_directory of main.rs: the entries of the
directory whose extension is rs, in listing order, as full paths. -/
def get_rs_files_in_directory (d : RootEntry) : List String :=
  (d.files.filter extensionIsRs).map (fun f => d.name ++ "/" ++ f)

/-- The inner per-file loop of watch mode (main.rs lines 81 to 99):
evaluate the file, record the result, print the diagnostics (which can
panic, the error case), then read a line and stop the loop when
ask_to_continue says quit. -/
def watch_files_loop (w : ExecWorld) (files : List String) (r : Report)
    (stdin : List String) : Except String (Report × List String) :=
  match files with
  | [] => .ok (r, stdin)
  | f :: rest =>
    let result := evaluate_single_file w f
    let r2 := record_result r f result
    match print_compiler_output w f with
    | .error e => .error e
    | .ok _ =>
      match print_cargo_test_output w f with
      | .error e => .error e
      | .ok _ =>
        let line := (read_line stdin).1
        let stdin2 := (read_line stdin).2
        if ask_to_continue line then watch_files_loop w rest r2 stdin2
        else .ok (r2, stdin2)

/-- The per-directory loop of watch mode (main.rs lines 64 to 102). -/
def watch_dirs_loop (w : ExecWorld) (dirs : List RootEntry) (r : Report)
    (stdin : List String) : Except String (Report × List String) :=
  match dirs with
  | [] => .ok (r, stdin)
  | d :: rest =>
    if d.isDir then
      if d.hasCargoToml then
        watch_dirs_loop w rest
          (record_result r d.name (evaluate_cargo_project w d.name).1) stdin
      else
        match watch_files_loop w (get_rs_files_in_directory d) r stdin with
        | .error e => .error e
        | .ok (r2, stdin2) => watch_dirs_loop w rest r2 stdin2
    else watch_dirs_loop w rest r stdin

/-- The inner per-file loop of batch mode (main.rs lines 122 to 133). -/
def all_files_loop (w : ExecWorld) (files : List String) (r : Report) : Report :=
  match files with
  | [] => r
  | f :: rest => all_files_loop w rest (record_result r f (evaluate_single_file w f))

/-- The per-directory loop of batch mode (main.rs lines 105 to 136). -/
def all_dirs_loop (w : ExecWorld) (dirs : List RootEntry) (r : Report) : Report :=
  match dirs with
  | [] => r
  | d :: rest =>
    if d.isDir then
      if d.hasCargoToml then
        all_dirs_loop w rest
          (record_result r d.name (evaluate_cargo_project w d.name).1)
      else
        all_dirs_loop w rest (all_files_loop w (get_rs_files_in_directory d) r)
    else all_dirs_loop w rest r

/-- Mirrors clean_target_dirs of main.rs: walk the entries; for a directory
with a target subdirectory, remove it recursively — and propagate a removal
failure immediately (the question-mark operator), skipping the rest.  The
second component records which target directories removal was attempted
on. -/
def clean_target_dirs : List RootEntry → Except String Unit × List String
  | [] => (.ok (), [])
  | e :: rest =>
    if e.isDir then
      if e.hasTarget then
        match e.removeTarget with
        | .error msg => (.error msg, [e.name ++ "/target"])
        | .ok _ =>
          let (res, cleaned) := clean_target_dirs rest
          (res, (e.name ++ "/target") :: cleaned)
      else clean_target_dirs rest
    else clean_target_dirs rest

/-- Running clean_target_dirs on the root listing at cleanup time, where
reading the root directory itself can also fail. -/
def clean_target_dirs_run (d : Except String (List RootEntry)) :
    Except String Unit × List String :=
  match d with
  | .error e => (.error e, [])
  | .ok entries => clean_target_dirs entries

/-- Mirrors main.rs lines 142 to 146: set total_exercations to the sum of
the two counters and total_time to the elapsed wall-clock seconds. -/
def finalize_report (r : Report) (elapsed : Nat) : Report :=
  { r with statistics :=
      { r.statistics with
          total_exercations := r.statistics.total_succeeds + r.statistics.total_failures,
          total_time := elapsed } }

/-- Everything external one session observes: the root listing at scan
time, the subprocess world, standard input, the root listing at cleanup
time, whether writing report.json succeeds, and the elapsed seconds. -/
structure World where
  rootDir : Except String (List RootEntry)
  exec : ExecWorld
  stdin : List String
  cleanupDir : Except String (List RootEntry)
  saveReportOk : Bool
  elapsedSecs : Nat

/-- How one process run of the grader ends: a usage error or an invalid
mode (exit 1, no report), a root-scan error (exit 1, no report), a panic
while printing diagnostics (process abort, no report), or normal
completion with the finalized report, an optional cleanup error that was
only logged, and whether the report file was written. -/
inductive MainOutcome where
  | usageError (msg : String)
  | scanError (msg : String)
  | invalidMode (msg : String)
  | aborted (msg : String)
  | completed (report : Report) (cleanupError : Option String) (reportWritten : Bool)
deriving DecidableEq

/-- The cleanup error a session with this world logs, if any: the error
component of running the cleanup on the cleanup-time root listing. -/
def cleanup_error (w : World) : Option String :=
  match (clean_target_dirs_run w.cleanupDir).1 with
  | .error e => some e
  | .ok _ => none

/-- Mirrors main.rs lines 142 to 163: finalize the statistics, clean the
target directories (a failure is only logged), print the summary and save
the report (a failure is only logged); the process then exits with code
0. -/
def finish_session (w : World) (r : Report) : MainOutcome :=
  let final := finalize_report r w.elapsedSecs
  match (clean_target_dirs_run w.cleanupDir).1 with
  | .error e => .completed final (some e) w.saveReportOk
  | .ok _ => .completed final none w.saveReportOk

/-- The body of main once a mode argument is present: scan the root (a
failure exits 1 before any iteration), then dispatch on the mode — note
the invalid-mode check only happens after the scan, as in the source. -/
def main_go (mode : String) (w : World) : MainOutcome :=
  match scan_directory w.rootDir with
  | .error e => .scanError e
  | .ok exercise_dirs =>
    if mode = "watch" then
      match watch_dirs_loop w.exec exercise_dirs initial_report w.stdin with
      | .error e => .aborted e
      | .ok (r, _) => finish_session w r
    else if mode = "all" then
      finish_session w (all_dirs_loop w.exec exercise_dirs initial_report)
    else .invalidMode "Invalid command. Please use 'watch' or 'all'."

/-- Mirrors main of main.rs: fewer than two arguments is a usage error
(exit 1), otherwise args at index 1 is the mode. -/
def main_run (args : List String) (w : World) : MainOutcome :=
  match args with
  | _ :: mode :: _ => main_go mode w
  | _ => .usageError "Please provide a command: 'watch' or 'all'"

/-- The process exit code of each outcome: explicit exits use 1, a Rust
panic makes the process exit with 101, and a completed session returns
from main with 0. -/
def exit_code : MainOutcome → Nat
  | .usageError _ => 1
  | .scanError _ => 1
  | .invalidMode _ => 1
  | .aborted _ => 101
  | .completed _ _ _ => 0

/-- Whether a report file was produced by the run. -/
def report_written : MainOutcome → Bool
  | .completed _ _ written => written
  | _ => false

/-- The counters of a report agree with its recorded results: succeeds
counts the true results and failures counts the false ones. -/
def counters_consistent (r : Report) : Prop :=
  r.statistics.total_succeeds = (r.exercises.filter (fun e => e.result)).length ∧
  r.statistics.total_failures = (r.exercises.filter (fun e => !e.result)).length

/-- The target subdirectories the cleanup contract covers: one for each
directory entry holding a target subdirectory, in listing order. -/
def cleanup_targets (entries : List RootEntry) : List String :=
  (entries.filter (fun e => e.isDir && e.hasTarget)).map (fun e => e.name ++ "/target")

/-- Whether the outcome is a usage-style rejection of the command line. -/
def is_usage_outcome : MainOutcome → Bool
  | .usageError _ => true
  | .invalidMode _ => true
  | _ => false

/-- A subprocess world in which every launch succeeds with a successful
exit status. -/
def demo_exec_ok : ExecWorld := fun _ => .ok ⟨true, "", ""⟩

/-- A subprocess world in which every launch succeeds but every command
exits with a failure status. -/
def demo_exec_bad_compile : ExecWorld := fun _ => .ok ⟨false, "", "error"⟩

/-- A directory entry holding a Cargo project. -/
def demo_cargo_entry : RootEntry :=
  ⟨"exercises/proj", true, true, ["Cargo.toml", "src"], false, .ok ()⟩

/-- A world whose toolchain cannot be launched at all (for instance the
executables are not on the PATH), with a readable root holding one
single-file exercise directory. -/
def broken_rustc_world : World :=
  { rootDir := .ok [⟨"exercises/intro", true, false, ["a.rs"], false, .ok ()⟩]
    exec := fun _ => .error "No such file or directory (os error 2)"
    stdin := []
    cleanupDir := .ok []
    saveReportOk := true
    elapsedSecs := 0 }

/-- Same shape as broken_rustc_world with a different exercise tree, used
for the abort-reachability analysis. -/
def broken_rustc_world2 : World :=
  { rootDir := .ok [⟨"exercises/basics", true, false, ["b.rs", "notes.txt"], false, .ok ()⟩]
    exec := fun _ => .error "No such file or directory (os error 2)"
    stdin := []
    cleanupDir := .ok []
    saveReportOk := true
    elapsedSecs := 0 }

/-- Same shape again, used for the exit-code analysis. -/
def broken_rustc_world3 : World :=
  { rootDir := .ok [⟨"exercises/loops", true, false, ["c.rs"], false, .ok ()⟩]
    exec := fun _ => .error "No such file or directory (os error 2)"
    stdin := []
    cleanupDir := .ok []
    saveReportOk := true
    elapsedSecs := 7 }

/-- A directory entry whose target removal fails. -/
def demo_cleanup_bad : RootEntry :=
  ⟨"exercises/alpha", true, false, [], true, .error "Permission denied (os error 13)"⟩

/-- A directory entry whose target removal succeeds. -/
def demo_cleanup_good : RootEntry :=
  ⟨"exercises/beta", true, false, [], true, .ok ()⟩

/-- A directory entry holding three single-file exercises. -/
def demo_files_entry : RootEntry :=
  ⟨"exercises/files", true, false, ["a.rs", "b.rs", "c.rs"], false, .ok ()⟩

/-- A fully healthy world: readable root with one project directory and
one single-file directory, a working toolchain, and clean removals. -/
def healthy_world : World :=
  { rootDir := .ok [demo_cargo_entry, demo_files_entry]
    exec := demo_exec_ok
    stdin := ["", "", ""]
    cleanupDir := .ok [demo_cleanup_good]
    saveReportOk := true
    elapsedSecs := 3 }

/-- Claim C1: for every Project unit the verdict is the logical AND of the
successes of the cargo build, cargo test and cargo clippy invocations; all
three are launched, in that fixed order, in the exercise's own directory,
with no short-circuiting; and both session loops record exactly that
verdict for the unit. -/
theorem claim_c1_cargo_project_verdict :
    (∀ (w : ExecWorld) (dir : String),
      (evaluate_cargo_project w dir).1 =
        ((run_cargo_command w dir "build").1 &&
          (run_cargo_command w dir "test").1 &&
          (run_cargo_command w dir "clippy").1) ∧
      (evaluate_cargo_project w dir).2 =
        [⟨"cargo", ["build"], some dir⟩, ⟨"cargo", ["test"], some dir⟩,
          ⟨"cargo", ["clippy"], some dir⟩]) ∧
    (∀ (w : ExecWorld) (d : RootEntry) (dirs : List RootEntry) (r : Report),
      d.isDir = true → d.hasCargoToml = true →
      all_dirs_loop w (d :: dirs) r =
        all_dirs_loop w dirs
          (record_result r d.name (evaluate_cargo_project w d.name).1)) ∧
    (∀ (w : ExecWorld) (d : RootEntry) (dirs : List RootEntry) (r : Report)
      (stdin : List String),
      d.isDir = true → d.hasCargoToml = true →
      watch_dirs_loop w (d :: dirs) r stdin =
        watch_dirs_loop w dirs
          (record_result r d.name (evaluate_cargo_project w d.name).1) stdin) := by
  refine ⟨fun w dir => ⟨rfl, rfl⟩, ?_, ?_⟩
  · intro w d dirs r h1 h2
    simp [all_dirs_loop, h1, h2]
  · intro w d dirs r stdin h1 h2
    simp [watch_dirs_loop, h1, h2]

/-- Witness for claim C1 at a concrete project directory entry: both loops
record the evaluator's verdict for it. -/
theorem claim_c1_cargo_project_verdict_witness :
    all_dirs_loop demo_exec_ok [demo_cargo_entry] initial_report =
      all_dirs_loop demo_exec_ok []
        (record_result initial_report demo_cargo_entry.name
          (evaluate_cargo_project demo_exec_ok demo_cargo_entry.name).1) ∧
    watch_dirs_loop demo_exec_ok [demo_cargo_entry] initial_report [] =
      watch_dirs_loop demo_exec_ok []
        (record_result initial_report demo_cargo_entry.name
          (evaluate_cargo_project demo_exec_ok demo_cargo_entry.name).1) [] :=
  ⟨claim_c1_cargo_project_verdict.2.1 demo_exec_ok demo_cargo_entry [] initial_report rfl rfl,
   claim_c1_cargo_project_verdict.2.2 demo_exec_ok demo_cargo_entry [] initial_report [] rfl rfl⟩

/-- Claim C2: a SingleFile unit's verdict is true iff both the compile step
and the artifact execution succeed; when the compile step fails only the
rustc invocation is performed (the artifact is never executed) and the
verdict is false; when the compile step succeeds the artifact is executed
with no arguments. -/
theorem claim_c2_single_file_verdict :
    ∀ (w : ExecWorld) (f : String),
      evaluate_single_file w f = (compile_step_ok w f && artifact_run_ok w f) ∧
      (compile_step_ok w f = false →
        (run_rustc_command w f).2 = [⟨"rustc", [f], none⟩] ∧
        evaluate_single_file w f = false) ∧
      (compile_step_ok w f = true →
        (run_rustc_command w f).2 =
          [⟨"rustc", [f], none⟩, ⟨withExtensionEmpty f, [], none⟩]) := by
  intro w f
  unfold evaluate_single_file run_rustc_command compile_step_ok artifact_run_ok
  cases h1 : w ⟨"rustc", [f], none⟩ with
  | error e => simp [is_ok, h1]
  | ok out =>
    cases hs : out.success with
    | false => simp [is_ok, h1, hs]
    | true =>
      cases h2 : w ⟨withExtensionEmpty f, [], none⟩ with
      | error e => simp [is_ok, h1, hs, h2]
      | ok out2 => cases hs2 : out2.success <;> simp [is_ok, h1, hs, h2, hs2]

/-- Witness for claim C2 at a concrete failing compile: only rustc is
invoked and the verdict is false. -/
theorem claim_c2_single_file_verdict_witness :
    (run_rustc_command demo_exec_bad_compile "exercises/intro/a.rs").2 =
      [⟨"rustc", ["exercises/intro/a.rs"], none⟩] ∧
    evaluate_single_file demo_exec_bad_compile "exercises/intro/a.rs" = false :=
  (claim_c2_single_file_verdict demo_exec_bad_compile "exercises/intro/a.rs").2.1 rfl

theorem record_result_consistent (r : Report) (n : String) (b : Bool)
    (h : counters_consistent r) : counters_consistent (record_result r n b) := by
  obtain ⟨h1, h2⟩ := h
  cases b <;>
    simp [record_result, counters_consistent, List.filter_append, h1, h2]

theorem all_files_loop_consistent (w : ExecWorld) :
    ∀ (files : List String) (r : Report), counters_consistent r →
      counters_consistent (all_files_loop w files r)
  | [], _, h => h
  | f :: rest, r, h =>
    all_files_loop_consistent w rest _
      (record_result_consistent r f (evaluate_single_file w f) h)

theorem all_dirs_loop_consistent (w : ExecWorld) :
    ∀ (dirs : List RootEntry) (r : Report), counters_consistent r →
      counters_consistent (all_dirs_loop w dirs r) := by
  intro dirs
  induction dirs with
  | nil => intro r h; exact h
  | cons d rest ih =>
    intro r h
    by_cases hd : d.isDir = true
    · by_cases hc : d.hasCargoToml = true
      · simpa [all_dirs_loop, hd, hc] using
          ih _ (record_result_consistent r d.name _ h)
      · simp only [Bool.not_eq_true] at hc
        simpa [all_dirs_loop, hd, hc] using
          ih _ (all_files_loop_consistent w (get_rs_files_in_directory d) r h)
    · simp only [Bool.not_eq_true] at hd
      simpa [all_dirs_loop, hd] using ih r h

theorem watch_files_loop_consistent (w : ExecWorld) :
    ∀ (files : List String) (r : Report) (stdin : List String)
      (r2 : Report) (stdin2 : List String),
      counters_consistent r →
      watch_files_loop w files r stdin = .ok (r2, stdin2) →
      counters_consistent r2 := by
  intro files
  induction files with
  | nil =>
    intro r stdin r2 stdin2 h heq
    simp only [watch_files_loop, Except.ok.injEq, Prod.mk.injEq] at heq
    obtain ⟨heq1, _⟩ := heq
    exact heq1 ▸ h
  | cons f rest ih =>
    intro r stdin r2 stdin2 h heq
    simp only [watch_files_loop] at heq
    split at heq
    · exact absurd heq (by simp)
    · split at heq
      · exact absurd heq (by simp)
      · split at heq
        · exact ih _ _ r2 stdin2
            (record_result_consistent r f (evaluate_single_file w f) h) heq
        · simp only [Except.ok.injEq, Prod.mk.injEq] at heq
          obtain ⟨heq1, _⟩ := heq
          exact heq1 ▸ record_result_consistent r f (evaluate_single_file w f) h

theorem watch_dirs_loop_consistent (w : ExecWorld) :
    ∀ (dirs : List RootEntry) (r : Report) (stdin : List String)
      (r2 : Report) (stdin2 : List String),
      counters_consistent r →
      watch_dirs_loop w dirs r stdin = .ok (r2, stdin2) →
      counters_consistent r2 := by
  intro dirs
  induction dirs with
  | nil =>
    intro r stdin r2 stdin2 h heq
    simp only [watch_dirs_loop, Except.ok.injEq, Prod.mk.injEq] at heq
    obtain ⟨heq1, _⟩ := heq
    exact heq1 ▸ h
  | cons d rest ih =>
    intro r stdin r2 stdin2 h heq
    simp only [watch_dirs_loop] at heq
    split at heq
    · split at heq
      · exact ih _ _ r2 stdin2
          (record_result_consistent r d.name _ h) heq
      · split at heq
        · exact absurd heq (by simp)
        · rename_i r3 stdin3 hfiles
          exact ih _ _ r2 stdin2
            (watch_files_loop_consistent w _ r stdin r3 stdin3 h hfiles) heq
    · exact ih _ _ r2 stdin2 h heq

theorem initial_report_consistent : counters_consistent initial_report :=
  ⟨rfl, rfl⟩

theorem finish_session_shape (w : World) (r : Report) :
    ∃ ce, finish_session w r =
      .completed (finalize_report r w.elapsedSecs) ce w.saveReportOk := by
  unfold finish_session
  split
  · exact ⟨some _, rfl⟩
  · exact ⟨none, rfl⟩

theorem main_run_completed_shape (args : List String) (w : World) (r : Report)
    (ce : Option String) (written : Bool)
    (h : main_run args w = .completed r ce written) :
    ∃ r0, counters_consistent r0 ∧ r = finalize_report r0 w.elapsedSecs ∧
      written = w.saveReportOk := by
  match args with
  | [] => exact absurd h (by simp [main_run])
  | [_] => exact absurd h (by simp [main_run])
  | _ :: mode :: rest =>
    simp only [main_run, main_go] at h
    split at h
    · exact absurd h (by simp)
    · rename_i dirs hscan
      split at h
      · split at h
        · exact absurd h (by simp)
        · rename_i r0 stdin0 hloop
          obtain ⟨ce2, hfin⟩ := finish_session_shape w r0
          rw [hfin] at h
          simp only [MainOutcome.completed.injEq] at h
          exact ⟨r0, watch_dirs_loop_consistent w.exec dirs initial_report
              w.stdin r0 stdin0 initial_report_consistent hloop,
            h.1.symm, h.2.2.symm⟩
      · split at h
        · obtain ⟨ce2, hfin⟩ :=
            finish_session_shape w (all_dirs_loop w.exec dirs initial_report)
          rw [hfin] at h
          simp only [MainOutcome.completed.injEq] at h
          exact ⟨all_dirs_loop w.exec dirs initial_report,
            all_dirs_loop_consistent w.exec dirs initial_report
              initial_report_consistent,
            h.1.symm, h.2.2.symm⟩
        · exact absurd h (by simp)

/-- Claim C3: every session that reaches finalization satisfies
total_exercations = total_succeeds + total_failures, and total_time is the
elapsed wall-clock duration of the whole session, written exactly at the
end. -/
theorem claim_c3_finalized_statistics :
    ∀ (args : List String) (w : World) (r : Report) (ce : Option String)
      (written : Bool),
      main_run args w = .completed r ce written →
      r.statistics.total_exercations =
        r.statistics.total_succeeds + r.statistics.total_failures ∧
      r.statistics.total_time = w.elapsedSecs := by
  intro args w r ce written h
  obtain ⟨r0, _, hr, _⟩ := main_run_completed_shape args w r ce written h
  subst hr
  exact ⟨rfl, rfl⟩

/-- Claim C10: each append increments exactly the matching counter, so the
counters stay consistent with the recorded list through every step, and in
particular the report of every completed session has total_succeeds equal
to the number of true results and total_failures equal to the number of
false results. -/
theorem claim_c10_counters_consistent :
    (∀ (r : Report) (n : String) (b : Bool),
      counters_consistent r → counters_consistent (record_result r n b)) ∧
    (∀ (args : List String) (w : World) (r : Report) (ce : Option String)
      (written : Bool),
      main_run args w = .completed r ce written → counters_consistent r) := by
  refine ⟨record_result_consistent, ?_⟩
  intro args w r ce written h
  obtain ⟨r0, hcons, hr, _⟩ := main_run_completed_shape args w r ce written h
  subst hr
  exact hcons

/-- Witness for claim C3 at a concrete batch session over a healthy
world. -/
theorem claim_c3_finalized_statistics_witness :
    (4 : Nat) = 4 + 0 ∧ (3 : Nat) = healthy_world.elapsedSecs :=
  claim_c3_finalized_statistics ["grader", "all"] healthy_world
    ⟨[⟨"exercises/proj", true⟩, ⟨"exercises/files/a.rs", true⟩,
      ⟨"exercises/files/b.rs", true⟩, ⟨"exercises/files/c.rs", true⟩],
      none, ⟨4, 4, 0, 3⟩⟩ none true (by decide)

/-- Witness for claim C10 at a concrete batch session with one failed
exercise. -/
theorem claim_c10_counters_consistent_witness :
    counters_consistent ⟨[⟨"exercises/intro/a.rs", false⟩], none, ⟨1, 0, 1, 0⟩⟩ :=
  claim_c10_counters_consistent.2 ["grader", "all"] broken_rustc_world
    ⟨[⟨"exercises/intro/a.rs", false⟩], none, ⟨1, 0, 1, 0⟩⟩ none true (by decide)

theorem finish_session_not_usage (w : World) (r : Report) :
    is_usage_outcome (finish_session w r) = false := by
  unfold finish_session
  split <;> rfl

theorem finish_session_eq (w : World) (r : Report) :
    finish_session w r =
      .completed (finalize_report r w.elapsedSecs) (cleanup_error w)
        w.saveReportOk := by
  unfold finish_session cleanup_error
  split <;> rfl

/-- Claim C5 fails on the code: with two subdirectories both holding a
target directory, a removal failure on the first makes clean_target_dirs
return early, so removal of the second target directory — although its
entry is a directory holding a target — is never attempted. -/
theorem claim_c5_cleanup_counterexample :
    demo_cleanup_good.isDir = true ∧ demo_cleanup_good.hasTarget = true ∧
    (clean_target_dirs [demo_cleanup_bad, demo_cleanup_good]).2 =
      ["exercises/alpha/target"] ∧
    "exercises/beta/target" ∉
      (clean_target_dirs [demo_cleanup_bad, demo_cleanup_good]).2 := by
  decide

/-- Claim C5 amended: at session end cleanup walks the immediate
subdirectories in listing order and removes the target directory of every
one that has it, regardless of any verdict — but only until the first
removal failure: such a failure stops the remaining cleanup; it is only
reported, and the session still completes with the same finalized report,
the same report-write status, and exit code 0. -/
theorem claim_c5_cleanup_amended :
    (∀ entries : List RootEntry,
      (∀ e ∈ entries, e.isDir = true → e.hasTarget = true →
        e.removeTarget = .ok ()) →
      clean_target_dirs entries = (.ok (), cleanup_targets entries)) ∧
    (∀ (e : RootEntry) (rest : List RootEntry) (msg : String),
      e.isDir = true → e.hasTarget = true → e.removeTarget = .error msg →
      clean_target_dirs (e :: rest) = (.error msg, [e.name ++ "/target"])) ∧
    (∀ (w : World) (r0 : Report),
      finish_session w r0 =
        .completed (finalize_report r0 w.elapsedSecs) (cleanup_error w)
          w.saveReportOk ∧
      exit_code (finish_session w r0) = 0) := by
  refine ⟨?_, ?_, ?_⟩
  · intro entries
    induction entries with
    | nil => intro _; simp [clean_target_dirs, cleanup_targets]
    | cons e rest ih =>
      intro h
      have hrest : ∀ e2 ∈ rest, e2.isDir = true → e2.hasTarget = true →
          e2.removeTarget = .ok () :=
        fun e2 hm => h e2 (List.mem_cons_of_mem e hm)
      by_cases hd : e.isDir = true
      · by_cases ht : e.hasTarget = true
        · have hrem : e.removeTarget = .ok () :=
            h e (List.mem_cons_self e rest) hd ht
          simp [clean_target_dirs, cleanup_targets, List.filter_cons, hd, ht,
            hrem, ih hrest]
        · simp only [Bool.not_eq_true] at ht
          simpa [clean_target_dirs, cleanup_targets, List.filter_cons, hd, ht]
            using ih hrest
      · simp only [Bool.not_eq_true] at hd
        simpa [clean_target_dirs, cleanup_targets, List.filter_cons, hd]
          using ih hrest
  · intro e rest msg hd ht hrem
    simp [clean_target_dirs, hd, ht, hrem]
  · intro w r0
    refine ⟨finish_session_eq w r0, ?_⟩
    rw [finish_session_eq w r0]
    rfl

/-- Witness for the amended claim C5 at concrete entry lists and a world
with a failing cleanup. -/
theorem claim_c5_cleanup_amended_witness :
    clean_target_dirs [demo_cleanup_good] =
      (.ok (), cleanup_targets [demo_cleanup_good]) ∧
    clean_target_dirs [demo_cleanup_bad, demo_cleanup_good] =
      (.error "Permission denied (os error 13)", ["exercises/alpha/target"]) ∧
    finish_session { healthy_world with cleanupDir := .error "boom" }
        initial_report =
      .completed (finalize_report initial_report healthy_world.elapsedSecs)
        (cleanup_error { healthy_world with cleanupDir := .error "boom" })
        healthy_world.saveReportOk :=
  ⟨claim_c5_cleanup_amended.1 [demo_cleanup_good] (by decide),
   claim_c5_cleanup_amended.2.1 demo_cleanup_bad [demo_cleanup_good]
     "Permission denied (os error 13)" rfl rfl rfl,
   (claim_c5_cleanup_amended.2.2
     { healthy_world with cleanupDir := .error "boom" } initial_report).1⟩

/-- Claim C6: in interactive mode, after a SingleFile unit is evaluated and
its result recorded, one input line is read; if it trims and lower-cases to
q the remaining files of the current container are skipped with exactly the
quit unit's result recorded, any other input continues with the next file,
and the controller then proceeds to the next container. -/
theorem claim_c6_interactive_quit :
    (∀ (w : ExecWorld) (f : String) (fs : List String) (r : Report)
      (line : String) (rest : List String),
      print_compiler_output w f = .ok () →
      print_cargo_test_output w f = .ok () →
      str_to_lower (str_trim line) = "q" →
      watch_files_loop w (f :: fs) r (line :: rest) =
        .ok (record_result r f (evaluate_single_file w f), rest)) ∧
    (∀ (r : Report) (f : String) (b : Bool),
      (record_result r f b).exercises = r.exercises ++ [⟨f, b⟩]) ∧
    (∀ (w : ExecWorld) (f : String) (fs : List String) (r : Report)
      (line : String) (rest : List String),
      print_compiler_output w f = .ok () →
      print_cargo_test_output w f = .ok () →
      ¬ str_to_lower (str_trim line) = "q" →
      watch_files_loop w (f :: fs) r (line :: rest) =
        watch_files_loop w fs (record_result r f (evaluate_single_file w f))
          rest) ∧
    (∀ (w : ExecWorld) (d : RootEntry) (dirs : List RootEntry) (r : Report)
      (stdin : List String) (r2 : Report) (stdin2 : List String),
      d.isDir = true → d.hasCargoToml = false →
      watch_files_loop w (get_rs_files_in_directory d) r stdin =
        .ok (r2, stdin2) →
      watch_dirs_loop w (d :: dirs) r stdin =
        watch_dirs_loop w dirs r2 stdin2) := by
  refine ⟨?_, ?_, ?_, ?_⟩
  · intro w f fs r line rest h1 h2 h3
    simp [watch_files_loop, h1, h2, read_line, ask_to_continue, h3]
  · intro r f b
    cases b <;> simp [record_result]
  · intro w f fs r line rest h1 h2 h3
    simp [watch_files_loop, h1, h2, read_line, ask_to_continue, h3]
  · intro w d dirs r stdin r2 stdin2 hd hc hloop
    simp [watch_dirs_loop, hd, hc, hloop]

/-- Witness for claim C6: a container with three single files, quit
signaled after the first; exactly its result is recorded and the loop
proceeds to the next container with the remaining input. -/
theorem claim_c6_interactive_quit_witness :
    watch_files_loop demo_exec_ok
        ["exercises/files/a.rs", "exercises/files/b.rs", "exercises/files/c.rs"]
        initial_report ["Q ", "next"] =
      .ok (record_result initial_report "exercises/files/a.rs"
          (evaluate_single_file demo_exec_ok "exercises/files/a.rs"), ["next"]) ∧
    watch_dirs_loop demo_exec_ok [demo_files_entry, demo_cargo_entry]
        initial_report ["Q "] =
      watch_dirs_loop demo_exec_ok [demo_cargo_entry]
        (record_result initial_report "exercises/files/a.rs" true) [] :=
  ⟨claim_c6_interactive_quit.1 demo_exec_ok "exercises/files/a.rs"
      ["exercises/files/b.rs", "exercises/files/c.rs"] initial_report "Q "
      ["next"] rfl rfl (by decide),
   claim_c6_interactive_quit.2.2.2 demo_exec_ok demo_files_entry
      [demo_cargo_entry] initial_report ["Q "]
      (record_result initial_report "exercises/files/a.rs" true) []
      rfl rfl (by decide)⟩

/-- Claim C7: a missing selector is a usage error with a diagnostic,
non-zero exit and no report; a selector other than watch and all never
reaches an evaluation (when the root is readable it is rejected as an
invalid command) and always exits non-zero with no report; and the two
recognized selectors are never rejected as usage errors. -/
theorem claim_c7_mode_selector :
    (∀ (args : List String) (w : World), args.length < 2 →
      main_run args w =
        .usageError "Please provide a command: 'watch' or 'all'" ∧
      exit_code (main_run args w) ≠ 0 ∧
      report_written (main_run args w) = false) ∧
    (∀ (a mode : String) (rest : List String) (w : World)
      (entries : List RootEntry),
      mode ≠ "watch" → mode ≠ "all" → w.rootDir = .ok entries →
      main_run (a :: mode :: rest) w =
        .invalidMode "Invalid command. Please use 'watch' or 'all'.") ∧
    (∀ (a mode : String) (rest : List String) (w : World),
      mode ≠ "watch" → mode ≠ "all" →
      exit_code (main_run (a :: mode :: rest) w) ≠ 0 ∧
      report_written (main_run (a :: mode :: rest) w) = false) ∧
    (∀ (a : String) (rest : List String) (w : World),
      is_usage_outcome (main_run (a :: "watch" :: rest) w) = false ∧
      is_usage_outcome (main_run (a :: "all" :: rest) w) = false) := by
  refine ⟨?_, ?_, ?_, ?_⟩
  · intro args w h
    match args with
    | [] => exact ⟨rfl, by simp [main_run, exit_code], rfl⟩
    | [a] => exact ⟨rfl, by simp [main_run, exit_code], rfl⟩
    | a :: b :: t => simp [List.length_cons] at h; omega
  · intro a mode rest w entries h1 h2 hroot
    simp [main_run, main_go, scan_directory, hroot, h1, h2]
  · intro a mode rest w h1 h2
    cases hroot : w.rootDir with
    | error e =>
      constructor <;>
        simp [main_run, main_go, scan_directory, hroot, exit_code,
          report_written]
    | ok entries =>
      constructor <;>
        simp [main_run, main_go, scan_directory, hroot, h1, h2, exit_code,
          report_written]
  · intro a rest w
    constructor
    · cases hroot : w.rootDir with
      | error e => simp [main_run, main_go, scan_directory, hroot, is_usage_outcome]
      | ok entries =>
        simp only [main_run, main_go, scan_directory, hroot, if_pos]
        cases hloop : watch_dirs_loop w.exec (entries.filter fun e => e.isDir)
            initial_report w.stdin with
        | error e => simp [hloop, is_usage_outcome]
        | ok p =>
          obtain ⟨r0, s0⟩ := p
          simp [hloop, finish_session_not_usage]
    · cases hroot : w.rootDir with
      | error e => simp [main_run, main_go, scan_directory, hroot, is_usage_outcome]
      | ok entries =>
        simp [main_run, main_go, scan_directory, hroot, finish_session_not_usage]

/-- Witness for claim C7 at concrete argument lists. -/
theorem claim_c7_mode_selector_witness :
    main_run ["grader"] healthy_world =
      .usageError "Please provide a command: 'watch' or 'all'" ∧
    main_run ["grader", "frobnicate"] healthy_world =
      .invalidMode "Invalid command. Please use 'watch' or 'all'." ∧
    exit_code (main_run ["grader", "frobnicate"] healthy_world) ≠ 0 :=
  ⟨(claim_c7_mode_selector.1 ["grader"] healthy_world (by decide)).1,
   claim_c7_mode_selector.2.1 "grader" "frobnicate" [] healthy_world
     [demo_cargo_entry, demo_files_entry] (by decide) (by decide) rfl,
   (claim_c7_mode_selector.2.2.1 "grader" "frobnicate" [] healthy_world
     (by decide) (by decide)).1⟩

/-- Claim C4 is contradicted by the code: a launch failure is recorded as a
false verdict by the evaluators, and batch mode completes as the claim
says — but in watch mode the diagnostic-printing call rerunning rustc
unwraps the launch with expect, so an unlaunchable toolchain aborts the
whole process instead of letting the session continue. -/
theorem claim_c4_launch_failure_divergence :
    (run_cargo_command broken_rustc_world.exec "exercises/intro" "build").1 =
      false ∧
    evaluate_single_file broken_rustc_world.exec "exercises/intro/a.rs" =
      false ∧
    main_run ["grader", "all"] broken_rustc_world =
      .completed ⟨[⟨"exercises/intro/a.rs", false⟩], none, ⟨1, 0, 1, 0⟩⟩
        none true ∧
    main_run ["grader", "watch"] broken_rustc_world =
      .aborted "Failed to execute rustc" := by
  decide

/-- Claim C8 is contradicted by the code: a root-scan failure does abort
with exit 1 and no report before any iteration, but it is not the only
aborting error kind — with a readable root, watch mode still aborts the
session when the toolchain cannot be launched for diagnostic printing. -/
theorem claim_c8_abort_beyond_root_scan :
    scan_directory broken_rustc_world2.rootDir =
      .ok [⟨"exercises/basics", true, false, ["b.rs", "notes.txt"], false,
        .ok ()⟩] ∧
    main_run ["grader", "watch"] broken_rustc_world2 =
      .aborted "Failed to execute rustc" ∧
    report_written (main_run ["grader", "watch"] broken_rustc_world2) =
      false ∧
    main_run ["grader", "watch"]
        { broken_rustc_world2 with
            rootDir := .error "Permission denied (os error 13)" } =
      .scanError "Permission denied (os error 13)" ∧
    report_written (main_run ["grader", "watch"]
        { broken_rustc_world2 with
            rootDir := .error "Permission denied (os error 13)" }) = false ∧
    exit_code (main_run ["grader", "watch"]
        { broken_rustc_world2 with
            rootDir := .error "Permission denied (os error 13)" }) = 1 := by
  decide

/-- Claim C9 is contradicted by the code: completed sessions do exit 0 even
with failing exercises, a failing cleanup and a failing report write — but
a non-zero exit is also reachable outside usage errors and unreadable
roots: watch mode with a readable root and an unlaunchable toolchain
panics, exiting 101. -/
theorem claim_c9_exit_code_divergence :
    exit_code (main_run ["grader", "all"] broken_rustc_world3) = 0 ∧
    exit_code (main_run ["grader", "all"]
      { broken_rustc_world3 with
          saveReportOk := false,
          cleanupDir := .error "Permission denied (os error 13)" }) = 0 ∧
    broken_rustc_world3.rootDir =
      .ok [⟨"exercises/loops", true, false, ["c.rs"], false, .ok ()⟩] ∧
    is_usage_outcome (main_run ["grader", "watch"] broken_rustc_world3) =
      false ∧
    exit_code (main_run ["grader", "watch"] broken_rustc_world3) = 101 := by
  decide
